import Mathlib

/-!
Shallow embedding of the core of the `webthing` reference implementation
(files `webthing/value.py`, `webthing/property.py`, `webthing/action.py`,
`webthing/event.py`, `webthing/thing.py`, `webthing/server.py`) in Lean 4,
together with theorems settling the frozen specification claims.

Conventions of the embedding:
* Python/JSON values are the inductive `PyVal`.  Python `==`, `<`, `>` and
  truthiness are modelled by `pyEq`, `pyLt`, `pyGt`, `pyTruthy`; a comparison
  Python would reject with `TypeError` is `none`.  Float payloads are
  restricted to integral values (carried as `Int`), which covers every value
  the claims exercise.
* Python `set` objects (subscriber sets) are modelled as duplicate-free
  `List Nat` of opaque subscriber handles; `add` appends if absent,
  `remove`/`discard` filters the handle out.
* `timestamp()` (wall-clock, monotonically non-decreasing) is modelled by a
  logical clock `Nat` threaded through the `Thing` state and incremented at
  each call.
* Raised exceptions are modelled by explicit outcome values
  (`SetOutcome.perror` for `PropertyError`, `SetOutcome.typeError` for an
  uncaught `TypeError` from an undefined comparison).
* Notification fan-out (`property_notify` / `action_notify` /
  `event_notify`) is modelled by a trace of `Delivery` records, each carrying
  the recipient handles and the broadcast message, returned alongside the
  mutated state by each operation.
-/

namespace Webthing

/-- Python/JSON values as handled by the library.  `float` carries an `Int`
payload: the embedding restricts floats to integral values (no claim involves
fractional constants), while keeping `type(x) is float` distinguishable from
`type(x) is int` as in Python. -/
inductive PyVal : Type where
  | null : PyVal
  | bool (b : Bool) : PyVal
  | int (n : Int) : PyVal
  | float (n : Int) : PyVal
  | str (s : String) : PyVal
  | list (xs : List PyVal) : PyVal
  | dict (fields : List (String × PyVal)) : PyVal
deriving Repr

/-- Python `is None` test. -/
def isNull : PyVal → Bool
  | .null => true
  | _ => false

/-- Numeric view: Python compares `bool`, `int` and `float` numerically
(`True == 1`, `1 == 1.0`). -/
def numVal : PyVal → Option Int
  | .bool b => some (if b then 1 else 0)
  | .int n => some n
  | .float n => some n
  | _ => none

/-- Association-list lookup for dict fields (Python dict keys are unique). -/
def lookupField (k : String) : List (String × PyVal) → Option PyVal
  | [] => none
  | (k', v) :: rest => if k' = k then some v else lookupField k rest

mutual
/-- Python `==` on the embedded values.  Numbers compare numerically across
`bool`/`int`/`float`; strings, lists and dicts compare structurally (dicts:
equal size and every field of the left dict present and equal in the right,
which for unique keys is Python dict equality); values of unrelated types
compare unequal. -/
def pyEq : PyVal → PyVal → Bool
  | .str a, .str b => a = b
  | .null, .null => true
  | .list as, .list bs => pyEqList as bs
  | .dict as, .dict bs => as.length = bs.length && pyEqFields as bs
  | a, b =>
    match numVal a, numVal b with
    | some x, some y => x = y
    | _, _ => false

/-- Pointwise Python `==` on lists. -/
def pyEqList : List PyVal → List PyVal → Bool
  | [], [] => true
  | a :: as, b :: bs => pyEq a b && pyEqList as bs
  | _, _ => false

/-- Every field of the first dict is present with a Python-equal value in the
second. -/
def pyEqFields : List (String × PyVal) → List (String × PyVal) → Bool
  | [], _ => true
  | (k, v) :: rest, bs =>
    (match lookupField k bs with
     | some w => pyEq v w
     | none => false) && pyEqFields rest bs
end

mutual
/-- Python `<`.  `none` models a `TypeError` (operands of incomparable
types).  Numbers compare numerically, strings and lists lexicographically. -/
def pyLt : PyVal → PyVal → Option Bool
  | .str a, .str b => some (decide (a < b))
  | .list as, .list bs => pyLtList as bs
  | a, b =>
    match numVal a, numVal b with
    | some x, some y => some (decide (x < y))
    | _, _ => none

/-- Python lexicographic `<` on lists: skip Python-equal prefixes, decide at
the first differing pair, a strict prefix is smaller. -/
def pyLtList : List PyVal → List PyVal → Option Bool
  | [], [] => some false
  | [], _ :: _ => some true
  | _ :: _, [] => some false
  | a :: as, b :: bs =>
    if pyEq a b then pyLtList as bs else pyLt a b
end

/-- Python `>`: for the built-in types involved this is the reflected `<`. -/
def pyGt (a b : PyVal) : Option Bool :=
  pyLt b a

/-- Python truthiness of a value (used for `metadata['readOnly']`). -/
def pyTruthy : PyVal → Bool
  | .null => false
  | .bool b => b
  | .int n => n ≠ 0
  | .float n => n ≠ 0
  | .str s => s ≠ ""
  | .list xs => !xs.isEmpty
  | .dict fs => !fs.isEmpty

/-- Outcome of a property write, modelling Python control flow:
`ok` = normal return, `perror` = a raised `PropertyError`, `typeError` = an
uncaught `TypeError` from an undefined comparison in `validate_value`. -/
inductive SetOutcome : Type where
  | ok : SetOutcome
  | perror (msg : String) : SetOutcome
  | typeError : SetOutcome
deriving Repr, DecidableEq

/-- `webthing/value.py`, class `Value`: an observable, settable cell.  The
optional `value_forwarder` only performs an external side effect, which the
embedding records as nothing; its presence does not change the cell or the
notification behaviour. -/
structure Value : Type where
  last_value : PyVal
deriving Repr

namespace Value

/-- `Value.get`: return the last known value. -/
def get (v : Value) : PyVal :=
  v.last_value

/-- `Value.notify_of_external_update`: if the new value is not `None` and
differs (Python `!=`) from the cached value, update the cache and emit exactly
one `update` event; otherwise do nothing.  Returns the new cell and the
number of `update` events emitted (0 or 1). -/
def notify_of_external_update (v : Value) (value : PyVal) : Value × Nat :=
  if !(isNull value) && !(pyEq value v.last_value) then
    ({ last_value := value }, 1)
  else
    (v, 0)

/-- `Value.set`: invoke the forwarder (external effect, nothing to record),
then `notify_of_external_update`. -/
def set (v : Value) (value : PyVal) : Value × Nat :=
  notify_of_external_update v value

end Value

/-- Property metadata as read by `validate_value`: each entry models the
presence (`some`) or absence (`none`) of the corresponding key in the
Python metadata dict. -/
structure PropertyMeta : Type where
  type_ : Option String
  readOnly : Option PyVal
  minimum : Option PyVal
  maximum : Option PyVal
  enum : Option (List PyVal)

/-- Metadata with no constraining entries. -/
def PropertyMeta.empty : PropertyMeta :=
  ⟨none, none, none, none, none⟩

/-- `webthing/property.py`, class `Property`: binds a name, a `Value` cell and
metadata.  The `update` observer installed in `__init__` is modelled by
`set_value` reporting its emitted notifications (each of which the `Thing`
turns into one `property_notify`). -/
structure SProperty : Type where
  name : String
  value : Value
  metadata : PropertyMeta

namespace SProperty

/-- First clause of `Property.validate_value`: the type-tag check.  Note the
source bug for tag `'null'`: the code tests `t is not None` where `t` is the
string `'null'`, so every value (including `None`) is rejected there. -/
def checkType (ot : Option String) (value : PyVal) : SetOutcome :=
  match ot with
  | none => SetOutcome.ok
  | some t =>
    if t = "null" then SetOutcome.perror "Value must be null"
    else if t = "boolean" then
      (match value with
       | .bool _ => SetOutcome.ok
       | _ => SetOutcome.perror "Value must be a boolean")
    else if t = "object" then
      (match value with
       | .dict _ => SetOutcome.ok
       | _ => SetOutcome.perror "Value must be an object")
    else if t = "array" then
      (match value with
       | .list _ => SetOutcome.ok
       | _ => SetOutcome.perror "Value must be an array")
    else if t = "number" then
      (match value with
       | .float _ => SetOutcome.ok
       | .int _ => SetOutcome.ok
       | _ => SetOutcome.perror "Value must be a number")
    else if t = "integer" then
      (match value with
       | .int _ => SetOutcome.ok
       | _ => SetOutcome.perror "Value must be an integer")
    else if t = "string" then
      (match value with
       | .str _ => SetOutcome.ok
       | _ => SetOutcome.perror "Value must be a string")
    else SetOutcome.ok

/-- `readOnly` clause: `'readOnly' in metadata and metadata['readOnly']`. -/
def checkReadOnly (ro : Option PyVal) : SetOutcome :=
  match ro with
  | some v => if pyTruthy v then SetOutcome.perror "Read-only property" else SetOutcome.ok
  | none => SetOutcome.ok

/-- `minimum` clause: `value < metadata['minimum']` raises `PropertyError`
when true, `TypeError` when the comparison is undefined. -/
def checkMinimum (mn : Option PyVal) (value : PyVal) : SetOutcome :=
  match mn with
  | none => SetOutcome.ok
  | some m =>
    match pyLt value m with
    | some true => SetOutcome.perror "Value less than minimum"
    | some false => SetOutcome.ok
    | none => SetOutcome.typeError

/-- `maximum` clause: `value > metadata['maximum']`. -/
def checkMaximum (mx : Option PyVal) (value : PyVal) : SetOutcome :=
  match mx with
  | none => SetOutcome.ok
  | some m =>
    match pyGt value m with
    | some true => SetOutcome.perror "Value greater than maximum"
    | some false => SetOutcome.ok
    | none => SetOutcome.typeError

/-- `enum` clause: a non-empty enum the value (Python `in`, i.e. `==` against
each element) is not a member of. -/
def checkEnum (en : Option (List PyVal)) (value : PyVal) : SetOutcome :=
  match en with
  | some es =>
    if es.length > 0 ∧ ¬ es.any (fun e => pyEq value e) then
      SetOutcome.perror "Invalid enum value"
    else SetOutcome.ok
  | none => SetOutcome.ok

/-- Sequencing of validation clauses: the first raised error aborts. -/
def andThen (a : SetOutcome) (b : SetOutcome) : SetOutcome :=
  match a with
  | SetOutcome.ok => b
  | e => e

/-- `Property.validate_value`, clause by clause in source order: type tag,
then `readOnly`, `minimum`, `maximum`, non-empty `enum`. -/
def validate_value (meta : PropertyMeta) (value : PyVal) : SetOutcome :=
  andThen (checkType meta.type_ value) <|
    andThen (checkReadOnly meta.readOnly) <|
      andThen (checkMinimum meta.minimum value) <|
        andThen (checkMaximum meta.maximum value) <|
          checkEnum meta.enum value

/-- `Property.get_value`: delegate to the cell. -/
def get_value (p : SProperty) : PyVal :=
  p.value.get

/-- `Property.set_value`: validate, propagating any raised error unchanged;
on success delegate to `Value.set`.  Returns the outcome, the new property
state, and the number of property-changed notifications triggered on the
owning `Thing` (via the `update` observer). -/
def set_value (p : SProperty) (value : PyVal) : SetOutcome × SProperty × Nat :=
  match validate_value p.metadata value with
  | SetOutcome.ok =>
    let r := p.value.set value
    (SetOutcome.ok, { p with value := r.1 }, r.2)
  | e => (e, p, 0)

end SProperty

/-- `webthing/action.py`, class `Action`: the record state of one action
instance (`href` fields are derived data and omitted; the `thing` back
reference is supplied explicitly to the lifecycle operations). -/
structure ActionRecord : Type where
  id : String
  name : String
  input : Option PyVal
  status : String
  time_requested : Nat
  time_completed : Option Nat
deriving Repr

/-- `webthing/event.py`, class `Event`. -/
structure EventRecord : Type where
  name : String
  time : Nat
  data : Option PyVal
deriving Repr

/-- `Event.as_event_description` (the `{name: {timestamp, data?}}` dict). -/
structure EventDescription : Type where
  name : String
  timestamp : Nat
  data : Option PyVal
deriving Repr

/-- `Event.as_event_description`. -/
def as_event_description (e : EventRecord) : EventDescription :=
  ⟨e.name, e.time, e.data⟩

/-- One entry of `Thing.available_actions`: the optional `input` JSON schema
of the metadata is modelled abstractly as a predicate (`jsonschema.validate`
raising `ValidationError` iff the predicate is false); the `class` factory is
modelled by the caller supplying the id the subclass constructor would
generate. -/
structure AvailableAction : Type where
  inputSchema : Option (Option PyVal → Bool)

/-- Generic lookup in a string-keyed association list (a Python dict). -/
def alistLookup {α : Type} (k : String) : List (String × α) → Option α
  | [] => none
  | (k', v) :: rest => if k' = k then some v else alistLookup k rest

/-- Dict assignment `d[k] = v`: replace the binding if present, else append. -/
def alistSet {α : Type} (k : String) (v : α) : List (String × α) → List (String × α)
  | [] => [(k, v)]
  | (k', v') :: rest => if k' = k then (k, v) :: rest else (k', v') :: alistSet k v rest

/-- `webthing/thing.py`, class `Thing`: the aggregate state.
`available_events` maps an event name to its per-event subscriber set
(the `metadata` part plays no role in the claims).  `clock` is the logical
time used by `timestamp()`. -/
structure Thing : Type where
  properties : List (String × SProperty)
  available_actions : List (String × AvailableAction)
  available_events : List (String × List Nat)
  actions : List (String × List ActionRecord)
  events : List EventRecord
  subscribers : List Nat
  clock : Nat

/-- An outbound streaming message. -/
inductive Message : Type where
  | propertyStatus (name : String) (value : PyVal) : Message
  | actionStatus (name : String) (id : String) (status : String)
      (timeRequested : Nat) (timeCompleted : Option Nat) : Message
  | event (name : String) (time : Nat) : Message
deriving Repr

/-- One notification fan-out: the message broadcast and the subscriber
handles it is addressed to (delivery to each recipient is best-effort and
cannot fail in the model). -/
structure Delivery : Type where
  recipients : List Nat
  message : Message
deriving Repr

namespace Thing

/-- `Thing.property_notify`: broadcast the property's current value to every
Thing-wide subscriber. -/
def property_notify (t : Thing) (p : SProperty) : Delivery :=
  ⟨t.subscribers, .propertyStatus p.name p.get_value⟩

/-- `Thing.action_notify`: broadcast the action description to every
Thing-wide subscriber. -/
def action_notify (t : Thing) (a : ActionRecord) : Delivery :=
  ⟨t.subscribers, .actionStatus a.name a.id a.status a.time_requested a.time_completed⟩

/-- `Thing.event_notify`: nothing if the event's name is not a registered
event kind; otherwise one broadcast addressed to that kind's subscriber set
only. -/
def event_notify (t : Thing) (e : EventRecord) : List Delivery :=
  match alistLookup e.name t.available_events with
  | none => []
  | some subs => [⟨subs, .event e.name e.time⟩]

/-- `Thing.add_event`: append to the event log, then notify. -/
def add_event (t : Thing) (e : EventRecord) : Thing × List Delivery :=
  let t' : Thing := { t with events := t.events ++ [e] }
  (t', event_notify t' e)

/-- `Thing.get_event_descriptions`: the whole log, or the entries with the
given name, in log order. -/
def get_event_descriptions (t : Thing) (event_name : Option String) : List EventDescription :=
  match event_name with
  | none => t.events.map as_event_description
  | some n => (t.events.filter (fun e => e.name = n)).map as_event_description

/-- `Thing.find_property`. -/
def find_property (t : Thing) (property_name : String) : Option SProperty :=
  alistLookup property_name t.properties

/-- `Thing.has_property`. -/
def has_property (t : Thing) (property_name : String) : Bool :=
  (alistLookup property_name t.properties).isSome

/-- `Thing.get_property`: the property's value, or `None` when absent. -/
def get_property (t : Thing) (property_name : String) : PyVal :=
  match find_property t property_name with
  | some p => p.get_value
  | none => PyVal.null

/-- How `Thing.set_property` returns to its caller: `ret` is a plain `None`
return (taken both when the property is unknown and on a successful write),
`raised e` a propagated exception from `Property.set_value`. -/
inductive SetPropResult : Type where
  | ret : SetPropResult
  | raised (e : SetOutcome) : SetPropResult
deriving Repr, DecidableEq

/-- `Thing.set_property`: silently return when the property is unknown,
else delegate to `Property.set_value`, propagating any raised error and
fanning out one property-changed broadcast per emitted `update` event. -/
def set_property (t : Thing) (property_name : String) (value : PyVal) :
    Thing × SetPropResult × List Delivery :=
  match find_property t property_name with
  | none => (t, .ret, [])
  | some p =>
    match p.set_value value with
    | (SetOutcome.ok, p', n) =>
      let t' : Thing := { t with properties := alistSet property_name p' t.properties }
      (t', .ret, List.replicate n (property_notify t' p'))
    | (e, _, _) => (t, .raised e, [])

/-- `Thing.get_action`: the first live action of that name with the given id. -/
def get_action (t : Thing) (action_name action_id : String) : Option ActionRecord :=
  match alistLookup action_name t.actions with
  | none => none
  | some lst => lst.find? (fun a => a.id = action_id)

/-- `Thing.perform_action`, staged: `none` when the action name is
unregistered or a declared input schema rejects the input; otherwise
`some (record, state at the created-notification, that notification, final state)`.
The record is constructed with `status='created'`, `timeRequested` stamped
from the clock, no `timeCompleted`; the created-notification fires *before*
the record is appended to the live-actions list. -/
def perform_action_steps (t : Thing) (action_name : String) (input : Option PyVal)
    (newId : String) : Option (ActionRecord × Thing × Delivery × Thing) :=
  match alistLookup action_name t.available_actions with
  | none => none
  | some desc =>
    if (match desc.inputSchema with
        | some schema => !(schema input)
        | none => false) then
      none
    else
      let action : ActionRecord :=
        { id := newId, name := action_name, input := input,
          status := "created", time_requested := t.clock, time_completed := none }
      let tMid : Thing := { t with clock := t.clock + 1 }
      let t' : Thing :=
        { tMid with actions :=
            (alistSet action_name ((alistLookup action_name tMid.actions).getD [] ++ [action])
              tMid.actions) }
      some (action, tMid, action_notify tMid action, t')

/-- `Thing.perform_action` as seen by callers: the created record (or `None`),
the final state and the notification trace. -/
def perform_action (t : Thing) (action_name : String) (input : Option PyVal)
    (newId : String) : Option ActionRecord × Thing × List Delivery :=
  match perform_action_steps t action_name input newId with
  | none => (none, t, [])
  | some (a, _, d, t') => (some a, t', [d])

/-- Propagation of the in-place mutation of an action object to the thing's
live-actions list (Python aliasing: the listed object and the mutated object
are one). -/
def updateLiveAction (t : Thing) (a : ActionRecord) : Thing :=
  { t with actions := t.actions.map (fun kv =>
      if kv.1 = a.name then (kv.1, kv.2.map (fun x => if x.id = a.id then a else x)) else kv) }

/-- `Thing.add_subscriber` (`set.add`). -/
def add_subscriber (t : Thing) (ws : Nat) : Thing :=
  { t with subscribers := if ws ∈ t.subscribers then t.subscribers else t.subscribers ++ [ws] }

/-- `Thing.add_event_subscriber`: add to the per-event set when the event
kind is registered. -/
def add_event_subscriber (t : Thing) (name : String) (ws : Nat) : Thing :=
  { t with available_events := t.available_events.map (fun kv =>
      if kv.1 = name then (kv.1, if ws ∈ kv.2 then kv.2 else kv.2 ++ [ws]) else kv) }

/-- `Thing.remove_event_subscriber`: when the event kind is registered and
the handle is in its set, remove it. -/
def remove_event_subscriber (t : Thing) (name : String) (ws : Nat) : Thing :=
  { t with available_events := t.available_events.map (fun kv =>
      if kv.1 = name ∧ ws ∈ kv.2 then (kv.1, kv.2.filter (fun x => x ≠ ws)) else kv) }

/-- `Thing.remove_subscriber`: remove from the Thing-wide set when present,
then call `remove_event_subscriber` for every registered event name. -/
def remove_subscriber (t : Thing) (ws : Nat) : Thing :=
  let t1 : Thing :=
    { t with subscribers :=
        if ws ∈ t.subscribers then t.subscribers.filter (fun x => x ≠ ws)
        else t.subscribers }
  (t1.available_events.map Prod.fst).foldl (fun acc name => remove_event_subscriber acc name ws) t1

end Thing

namespace Action

/-- `Action.cancel`: the base-class body is `pass` — no state is touched. -/
def cancel (a : ActionRecord) : ActionRecord :=
  a

/-- `Action.finish`: set `status='completed'`, stamp `timeCompleted`,
notify.  The mutated record is also the one aliased in the live list. -/
def finish (t : Thing) (a : ActionRecord) : ActionRecord × Thing × List Delivery :=
  let a' : ActionRecord := { a with status := "completed", time_completed := some t.clock }
  let t' : Thing := Thing.updateLiveAction { t with clock := t.clock + 1 } a'
  (a', t', [Thing.action_notify t' a'])

/-- `Action.start`: set `status='pending'`, notify, run the work body
(`Action.perform_action`, whose base-class body is `pass`), then `finish`. -/
def start (t : Thing) (a : ActionRecord) : ActionRecord × Thing × List Delivery :=
  let a1 : ActionRecord := { a with status := "pending" }
  let t1 : Thing := Thing.updateLiveAction t a1
  let d1 : Delivery := Thing.action_notify t1 a1
  let r := finish t1 a1
  (r.1, r.2.1, d1 :: r.2.2)

end Action

/-- `Thing.remove_action`: look up by exact (name, id); when found, call its
`cancel` (a no-op for the base class) and delete it from the live list
(`list.remove` deletes the first occurrence of the found object). -/
def Thing.remove_action (t : Thing) (action_name action_id : String) : Thing × Bool :=
  match Thing.get_action t action_name action_id with
  | none => (t, false)
  | some a =>
    let _ := Action.cancel a
    (({ t with actions := t.actions.map (fun kv =>
          if kv.1 = action_name then
            (kv.1, (kv.2.eraseP (fun x => x.id = action_id)))
          else kv) } : Thing), true)

/-- `webthing/server.py`, class `SingleThing`: `get_thing` ignores its
argument. -/
structure SingleThing (α : Type) : Type where
  thing : α

/-- `SingleThing.get_thing`. -/
def SingleThing.get_thing {α : Type} (s : SingleThing α) (_idx : String) : α :=
  s.thing

/-- State machine of Python `int(str)` digit parsing after the first digit:
digits with single underscores strictly between digits. -/
def parseDigitTail (prevUnderscore : Bool) (acc : Nat) : List Char → Option Nat
  | [] => if prevUnderscore then none else some acc
  | c :: rest =>
    if c.isDigit then parseDigitTail false (acc * 10 + (c.toNat - 48)) rest
    else if c = '_' ∧ ¬ prevUnderscore then parseDigitTail true acc rest
    else none

/-- ASCII whitespace stripped by Python `int(str)`. -/
def isPySpace (c : Char) : Bool :=
  c = ' ' ∨ c = '\t' ∨ c = '\n' ∨ c = '\r' ∨ c = '\x0b' ∨ c = '\x0c'

/-- Strip leading and trailing whitespace from a character list. -/
def stripChars (cs : List Char) : List Char :=
  ((cs.dropWhile isPySpace).reverse.dropWhile isPySpace).reverse

/-- Python `int(s)` on strings: strip surrounding whitespace, optional single
sign, then a digit sequence (underscores allowed between digits); `none`
models a raised `ValueError`. -/
def pyParseInt (s : String) : Option Int :=
  match stripChars s.toList with
  | '+' :: c :: rest =>
    if c.isDigit then (parseDigitTail false (c.toNat - 48) rest).map Int.ofNat else none
  | '-' :: c :: rest =>
    if c.isDigit then (parseDigitTail false (c.toNat - 48) rest).map (fun n => -(Int.ofNat n))
    else none
  | c :: rest =>
    if c.isDigit then (parseDigitTail false (c.toNat - 48) rest).map Int.ofNat else none
  | [] => none

/-- `webthing/server.py`, class `MultipleThings`. -/
structure MultipleThings (α : Type) : Type where
  things : List α
  name : String

/-- `MultipleThings.get_thing`: parse the identifier with `int(...)`
(`ValueError` → not found), reject indices `< 0` or `>= len(things)`, else
index the ordered sequence. -/
def MultipleThings.get_thing {α : Type} (m : MultipleThings α) (idx : String) : Option α :=
  match pyParseInt idx with
  | none => none
  | some i =>
    if i < 0 ∨ (m.things.length : Int) ≤ i then none
    else m.things.get? i.toNat

/-!
## Theorems settling the claims
-/

/-- C2: writing a value Python-equal to the cached value, or writing null,
leaves the property (in particular its cached value) unchanged and emits zero
property-changed notifications; and a successful `set_value` that actually
changes the cached value emits exactly one property-changed notification
(returned with the call, hence before `set_value` returns). -/
theorem claim_C2 (p : SProperty) (value : PyVal) :
    (pyEq value p.get_value = true ∨ value = PyVal.null →
      (p.set_value value).2.1 = p ∧ (p.set_value value).2.2 = 0) ∧
    ((p.set_value value).1 = SetOutcome.ok →
      (p.set_value value).2.1.get_value ≠ p.get_value →
      (p.set_value value).2.2 = 1) := by
  unfold SProperty.set_value
  cases hv : SProperty.validate_value p.metadata value with
  | ok =>
    unfold Value.set Value.notify_of_external_update
    by_cases hc : (!(isNull value) && !(pyEq value p.value.last_value)) = true
    · constructor
      · intro h
        exfalso
        simp only [Bool.and_eq_true, Bool.not_eq_true'] at hc
        rcases h with h | h
        · rw [SProperty.get_value, Value.get] at h
          rw [h] at hc
          exact absurd hc.2 (by simp)
        · subst h
          exact absurd hc.1 (by simp [isNull])
      · intro _ _
        simp [hc]
    · simp only [Bool.not_eq_true] at hc
      constructor
      · intro _
        simp [hc]
      · intro _ hchg
        exfalso
        apply hchg
        simp [hc, SProperty.get_value, Value.get]
  | perror msg =>
    refine ⟨fun _ => ⟨rfl, rfl⟩, fun hok => ?_⟩
    simp at hok
  | typeError =>
    refine ⟨fun _ => ⟨rfl, rfl⟩, fun hok => ?_⟩
    simp at hok

/-- A concrete unconstrained property caching the integer 5. -/
def pW : SProperty :=
  ⟨"level", ⟨PyVal.int 5⟩, PropertyMeta.empty⟩

/-- Witness for C2 at the property `pW`: an identical write and a null write
change nothing and notify nobody, a changing write notifies exactly once. -/
theorem claim_C2_witness :
    ((pW.set_value (PyVal.int 5)).2.1 = pW ∧ (pW.set_value (PyVal.int 5)).2.2 = 0) ∧
    ((pW.set_value PyVal.null).2.1 = pW ∧ (pW.set_value PyVal.null).2.2 = 0) ∧
    (pW.set_value (PyVal.int 7)).2.2 = 1 := by
  refine ⟨(claim_C2 pW (PyVal.int 5)).1 (Or.inl rfl),
          (claim_C2 pW PyVal.null).1 (Or.inr rfl),
          (claim_C2 pW (PyVal.int 7)).2 rfl ?_⟩
  intro h
  have h2 : PyVal.int 7 = PyVal.int 5 := h
  simp at h2

/-- Whether a value has the shape demanded by a declared type tag (the tests
`validate_value` applies per tag; tags outside the recognised six constrain
nothing). -/
def typeMatches (t : String) (v : PyVal) : Bool :=
  if t = "boolean" then (match v with | .bool _ => true | _ => false)
  else if t = "object" then (match v with | .dict _ => true | _ => false)
  else if t = "array" then (match v with | .list _ => true | _ => false)
  else if t = "number" then (match v with | .float _ => true | .int _ => true | _ => false)
  else if t = "integer" then (match v with | .int _ => true | _ => false)
  else if t = "string" then (match v with | .str _ => true | _ => false)
  else true

namespace SProperty

theorem andThen_perror (a b : SetOutcome) (msg : String) (h : a = SetOutcome.perror msg) :
    andThen a b = SetOutcome.perror msg := by
  subst h; rfl

theorem andThen_ok (a b : SetOutcome) (h : a = SetOutcome.ok) : andThen a b = b := by
  subst h; rfl

theorem checkType_ne_typeError (ot : Option String) (v : PyVal) :
    checkType ot v ≠ SetOutcome.typeError := by
  cases ot with
  | none => simp [checkType]
  | some t =>
    simp only [checkType]
    split_ifs <;> cases v <;> simp

theorem checkReadOnly_ne_typeError (ro : Option PyVal) :
    checkReadOnly ro ≠ SetOutcome.typeError := by
  cases ro with
  | none => simp [checkReadOnly]
  | some v => simp only [checkReadOnly]; split_ifs <;> simp

/-- An outcome that is neither `ok` nor `typeError` is some `perror`. -/
theorem exists_perror_of_ne (a : SetOutcome) (h1 : a ≠ SetOutcome.ok)
    (h2 : a ≠ SetOutcome.typeError) : ∃ msg, a = SetOutcome.perror msg := by
  cases a with
  | ok => exact absurd rfl h1
  | typeError => exact absurd rfl h2
  | perror msg => exact ⟨msg, rfl⟩

/-- If the type and readOnly stages pass but a later stage gives `perror`,
or an earlier stage already gives `perror`, `validate_value` gives `perror`.
This is the generic chaining fact used by the C3 rejection conjuncts. -/
theorem validate_value_perror_iff (meta : PropertyMeta) (value : PyVal) :
    (∃ msg, validate_value meta value = SetOutcome.perror msg) ↔
      (∃ msg, checkType meta.type_ value = SetOutcome.perror msg) ∨
      (checkType meta.type_ value = SetOutcome.ok ∧
        ∃ msg, checkReadOnly meta.readOnly = SetOutcome.perror msg) ∨
      (checkType meta.type_ value = SetOutcome.ok ∧
        checkReadOnly meta.readOnly = SetOutcome.ok ∧
        ∃ msg, checkMinimum meta.minimum value = SetOutcome.perror msg) ∨
      (checkType meta.type_ value = SetOutcome.ok ∧
        checkReadOnly meta.readOnly = SetOutcome.ok ∧
        checkMinimum meta.minimum value = SetOutcome.ok ∧
        ∃ msg, checkMaximum meta.maximum value = SetOutcome.perror msg) ∨
      (checkType meta.type_ value = SetOutcome.ok ∧
        checkReadOnly meta.readOnly = SetOutcome.ok ∧
        checkMinimum meta.minimum value = SetOutcome.ok ∧
        checkMaximum meta.maximum value = SetOutcome.ok ∧
        ∃ msg, checkEnum meta.enum value = SetOutcome.perror msg) := by
  unfold validate_value
  cases h1 : checkType meta.type_ value <;>
    cases h2 : checkReadOnly meta.readOnly <;>
      cases h3 : checkMinimum meta.minimum value <;>
        cases h4 : checkMaximum meta.maximum value <;>
          cases h5 : checkEnum meta.enum value <;>
            simp [andThen]

theorem checkType_perror_of_not_matches (t : String) (v : PyVal)
    (ht : t ∈ ["boolean", "object", "array", "number", "integer", "string"])
    (hm : typeMatches t v = false) :
    ∃ msg, checkType (some t) v = SetOutcome.perror msg := by
  fin_cases ht <;> cases v <;> simp [checkType, typeMatches] at hm ⊢

theorem checkMinimum_eq_typeError (mn : Option PyVal) (v : PyVal) :
    checkMinimum mn v = SetOutcome.typeError ↔ ∃ m, mn = some m ∧ pyLt v m = none := by
  cases mn with
  | none => simp [checkMinimum]
  | some m => cases h : pyLt v m with
    | none => simp [checkMinimum, h]
    | some b => cases b <;> simp [checkMinimum, h]

theorem checkMaximum_eq_typeError (mx : Option PyVal) (v : PyVal) :
    checkMaximum mx v = SetOutcome.typeError ↔ ∃ m, mx = some m ∧ pyGt v m = none := by
  cases mx with
  | none => simp [checkMaximum]
  | some m => cases h : pyGt v m with
    | none => simp [checkMaximum, h]
    | some b => cases b <;> simp [checkMaximum, h]

end SProperty

/-- C3: a property write whose value has the wrong shape for the declared
type tag, or is below `minimum`, above `maximum`, absent from a non-empty
`enum`, or aimed at a `readOnly` property, is rejected with a
`PropertyError`, leaves the cached value unchanged and emits no
notification; a non-null write passing validation succeeds and a subsequent
`get_value` returns the written value (structurally, or up to Python `==`
when the written value was already cached).  The null write is the no-op
case settled by C2.  The maximum and enum clauses assume the comparisons of
the clauses the source checks first are defined (otherwise the source
raises `TypeError` there, not `PropertyError`). -/
theorem claim_C3 (p : SProperty) (value : PyVal) :
    (∀ t, p.metadata.type_ = some t →
      t ∈ ["boolean", "object", "array", "number", "integer", "string"] →
      typeMatches t value = false →
      ∃ msg, SProperty.validate_value p.metadata value = SetOutcome.perror msg) ∧
    (∀ r, p.metadata.readOnly = some r → pyTruthy r = true →
      ∃ msg, SProperty.validate_value p.metadata value = SetOutcome.perror msg) ∧
    (∀ m, p.metadata.minimum = some m → pyLt value m = some true →
      ∃ msg, SProperty.validate_value p.metadata value = SetOutcome.perror msg) ∧
    (∀ m, p.metadata.maximum = some m → pyGt value m = some true →
      (∀ mn, p.metadata.minimum = some mn → pyLt value mn ≠ none) →
      ∃ msg, SProperty.validate_value p.metadata value = SetOutcome.perror msg) ∧
    (∀ es, p.metadata.enum = some es → 0 < es.length →
      es.any (fun e => pyEq value e) = false →
      (∀ mn, p.metadata.minimum = some mn → pyLt value mn ≠ none) →
      (∀ mx, p.metadata.maximum = some mx → pyGt value mx ≠ none) →
      ∃ msg, SProperty.validate_value p.metadata value = SetOutcome.perror msg) ∧
    (∀ msg, SProperty.validate_value p.metadata value = SetOutcome.perror msg →
      p.set_value value = (SetOutcome.perror msg, p, 0)) ∧
    (SProperty.validate_value p.metadata value = SetOutcome.ok → value ≠ PyVal.null →
      (p.set_value value).1 = SetOutcome.ok ∧
      ((p.set_value value).2.1.get_value = value ∨
        pyEq value ((p.set_value value).2.1.get_value) = true)) := by
  refine ⟨?_, ?_, ?_, ?_, ?_, ?_, ?_⟩
  · intro t ht htmem hm
    obtain ⟨msg, hct⟩ := SProperty.checkType_perror_of_not_matches t value htmem hm
    exact (SProperty.validate_value_perror_iff _ _).2 (Or.inl ⟨msg, by rw [ht]; exact hct⟩)
  · intro r hr htr
    cases hct : SProperty.checkType p.metadata.type_ value with
    | perror m => exact (SProperty.validate_value_perror_iff _ _).2 (Or.inl ⟨m, hct⟩)
    | typeError => exact absurd hct (SProperty.checkType_ne_typeError _ _)
    | ok =>
      refine (SProperty.validate_value_perror_iff _ _).2 (Or.inr (Or.inl ⟨hct, ?_⟩))
      exact ⟨"Read-only property", by simp [SProperty.checkReadOnly, hr, htr]⟩
  · intro m hm hlt
    cases hct : SProperty.checkType p.metadata.type_ value with
    | perror m2 => exact (SProperty.validate_value_perror_iff _ _).2 (Or.inl ⟨m2, hct⟩)
    | typeError => exact absurd hct (SProperty.checkType_ne_typeError _ _)
    | ok =>
      cases hro : SProperty.checkReadOnly p.metadata.readOnly with
      | perror m2 =>
        exact (SProperty.validate_value_perror_iff _ _).2 (Or.inr (Or.inl ⟨hct, m2, hro⟩))
      | typeError => exact absurd hro (SProperty.checkReadOnly_ne_typeError _)
      | ok =>
        refine (SProperty.validate_value_perror_iff _ _).2
          (Or.inr (Or.inr (Or.inl ⟨hct, hro, ?_⟩)))
        exact ⟨"Value less than minimum", by simp [SProperty.checkMinimum, hm, hlt]⟩
  · intro m hm hgt hmindef
    cases hct : SProperty.checkType p.metadata.type_ value with
    | perror m2 => exact (SProperty.validate_value_perror_iff _ _).2 (Or.inl ⟨m2, hct⟩)
    | typeError => exact absurd hct (SProperty.checkType_ne_typeError _ _)
    | ok =>
      cases hro : SProperty.checkReadOnly p.metadata.readOnly with
      | perror m2 =>
        exact (SProperty.validate_value_perror_iff _ _).2 (Or.inr (Or.inl ⟨hct, m2, hro⟩))
      | typeError => exact absurd hro (SProperty.checkReadOnly_ne_typeError _)
      | ok =>
        cases hmin : SProperty.checkMinimum p.metadata.minimum value with
        | perror m2 =>
          exact (SProperty.validate_value_perror_iff _ _).2
            (Or.inr (Or.inr (Or.inl ⟨hct, hro, m2, hmin⟩)))
        | typeError =>
          obtain ⟨mn, hmn, hnone⟩ := (SProperty.checkMinimum_eq_typeError _ _).1 hmin
          exact absurd hnone (hmindef mn hmn)
        | ok =>
          refine (SProperty.validate_value_perror_iff _ _).2
            (Or.inr (Or.inr (Or.inr (Or.inl ⟨hct, hro, hmin, ?_⟩))))
          exact ⟨"Value greater than maximum", by simp [SProperty.checkMaximum, hm, hgt]⟩
  · intro es hes hlen hany hmindef hmaxdef
    cases hct : SProperty.checkType p.metadata.type_ value with
    | perror m2 => exact (SProperty.validate_value_perror_iff _ _).2 (Or.inl ⟨m2, hct⟩)
    | typeError => exact absurd hct (SProperty.checkType_ne_typeError _ _)
    | ok =>
      cases hro : SProperty.checkReadOnly p.metadata.readOnly with
      | perror m2 =>
        exact (SProperty.validate_value_perror_iff _ _).2 (Or.inr (Or.inl ⟨hct, m2, hro⟩))
      | typeError => exact absurd hro (SProperty.checkReadOnly_ne_typeError _)
      | ok =>
        cases hmin : SProperty.checkMinimum p.metadata.minimum value with
        | perror m2 =>
          exact (SProperty.validate_value_perror_iff _ _).2
            (Or.inr (Or.inr (Or.inl ⟨hct, hro, m2, hmin⟩)))
        | typeError =>
          obtain ⟨mn, hmn, hnone⟩ := (SProperty.checkMinimum_eq_typeError _ _).1 hmin
          exact absurd hnone (hmindef mn hmn)
        | ok =>
          cases hmax : SProperty.checkMaximum p.metadata.maximum value with
          | perror m2 =>
            exact (SProperty.validate_value_perror_iff _ _).2
              (Or.inr (Or.inr (Or.inr (Or.inl ⟨hct, hro, hmin, m2, hmax⟩))))
          | typeError =>
            obtain ⟨mx, hmx, hnone⟩ := (SProperty.checkMaximum_eq_typeError _ _).1 hmax
            exact absurd hnone (hmaxdef mx hmx)
          | ok =>
            refine (SProperty.validate_value_perror_iff _ _).2
              (Or.inr (Or.inr (Or.inr (Or.inr ⟨hct, hro, hmin, hmax, ?_⟩))))
            refine ⟨"Invalid enum value", ?_⟩
            simp [SProperty.checkEnum, hes, hlen, hany]
  · intro msg hv
    simp [SProperty.set_value, hv]
  · intro hok hnn
    simp only [SProperty.set_value, hok]
    unfold Value.set Value.notify_of_external_update
    by_cases hc : (!(isNull value) && !(pyEq value p.value.last_value)) = true
    · simp [hc, SProperty.get_value, Value.get]
    · rw [Bool.not_eq_true] at hc
      cases hn : isNull value with
      | true => exact absurd (by cases value <;> simp [isNull] at hn ⊢) hnn
      | false =>
        cases hpe : pyEq value p.value.last_value with
        | false => rw [hn, hpe] at hc; simp at hc
        | true =>
          refine ⟨?_, Or.inr ?_⟩ <;> simp [hn, hpe, SProperty.get_value, Value.get]

/-- A number property with `minimum=0`, `maximum=100`, caching 50. -/
def pGate : SProperty :=
  ⟨"level", ⟨PyVal.int 50⟩, ⟨some "number", none, some (PyVal.int 0), some (PyVal.int 100), none⟩⟩

/-- A read-only property. -/
def pRO : SProperty :=
  ⟨"locked", ⟨PyVal.int 1⟩, ⟨none, some (PyVal.bool true), none, none, none⟩⟩

/-- A property constrained by a non-empty enum. -/
def pEnum : SProperty :=
  ⟨"mode", ⟨PyVal.str "eco"⟩, ⟨none, none, none, none, some [PyVal.str "eco", PyVal.str "boost"]⟩⟩

/-- Witness for C3 at concrete properties: each of the five rejection causes
fires, `setValue(101)` is rejected without mutation or notification, and
`setValue(50)` succeeds with `getValue() == 50`. -/
theorem claim_C3_witness :
    (∃ msg, SProperty.validate_value pGate.metadata (PyVal.str "x") = SetOutcome.perror msg) ∧
    (∃ msg, SProperty.validate_value pRO.metadata (PyVal.int 0) = SetOutcome.perror msg) ∧
    (∃ msg, SProperty.validate_value pGate.metadata (PyVal.int (-1)) = SetOutcome.perror msg) ∧
    (∃ msg, SProperty.validate_value pGate.metadata (PyVal.int 101) = SetOutcome.perror msg) ∧
    (∃ msg, SProperty.validate_value pEnum.metadata (PyVal.str "off") = SetOutcome.perror msg) ∧
    pGate.set_value (PyVal.int 101) = (SetOutcome.perror "Value greater than maximum", pGate, 0) ∧
    (pGate.set_value (PyVal.int 50)).1 = SetOutcome.ok ∧
    ((pGate.set_value (PyVal.int 50)).2.1.get_value = PyVal.int 50 ∨
      pyEq (PyVal.int 50) ((pGate.set_value (PyVal.int 50)).2.1.get_value) = true) := by
  refine ⟨(claim_C3 pGate (PyVal.str "x")).1 "number" rfl (by simp) rfl,
          (claim_C3 pRO (PyVal.int 0)).2.1 (PyVal.bool true) rfl rfl,
          (claim_C3 pGate (PyVal.int (-1))).2.2.1 (PyVal.int 0) rfl rfl,
          (claim_C3 pGate (PyVal.int 101)).2.2.2.1 (PyVal.int 100) rfl rfl
            (fun mn hmn => by
              have h : PyVal.int 0 = mn := by injection hmn
              subst h; decide),
          (claim_C3 pEnum (PyVal.str "off")).2.2.2.2.1 [PyVal.str "eco", PyVal.str "boost"]
            rfl (by decide) rfl (fun mn hmn => nomatch hmn) (fun mx hmx => nomatch hmx),
          (claim_C3 pGate (PyVal.int 101)).2.2.2.2.2.1 "Value greater than maximum" rfl,
          (claim_C3 pGate (PyVal.int 50)).2.2.2.2.2.2 rfl (fun h => PyVal.noConfusion h)⟩

theorem alistLookup_alistSet_self {α : Type} (k : String) (v : α) (l : List (String × α)) :
    alistLookup k (alistSet k v l) = some v := by
  induction l with
  | nil => simp [alistSet, alistLookup]
  | cons kv rest ih =>
    by_cases h : kv.1 = k
    · simp [alistSet, h, alistLookup]
    · simp [alistSet, h, alistLookup, ih]

theorem find?_append_of_none {α : Type} (p : α → Bool) (l1 l2 : List α)
    (h : l1.find? p = none) : (l1 ++ l2).find? p = l2.find? p := by
  induction l1 with
  | nil => rfl
  | cons x xs ih =>
    rw [List.cons_append]
    cases hx : p x with
    | true => simp [List.find?, hx] at h
    | false =>
      simp only [List.find?, hx] at h ⊢
      exact ih h

/-- The reduced form of `perform_action_steps` on a successful request. -/
theorem perform_action_steps_eq (t : Thing) (name : String) (input : Option PyVal)
    (newId : String) (desc : AvailableAction)
    (hreg : alistLookup name t.available_actions = some desc)
    (hschema : ∀ f, desc.inputSchema = some f → f input = true) :
    Thing.perform_action_steps t name input newId =
      some (⟨newId, name, input, "created", t.clock, none⟩,
        { t with clock := t.clock + 1 },
        ⟨t.subscribers, Message.actionStatus name newId "created" t.clock none⟩,
        { t with
            clock := t.clock + 1
            actions := (alistSet name
              ((alistLookup name t.actions).getD [] ++
                [⟨newId, name, input, "created", t.clock, none⟩])
              t.actions) }) := by
  have hguard : (match desc.inputSchema with
      | some schema => !(schema input)
      | none => false) = false := by
    cases hf : desc.inputSchema with
    | none => rfl
    | some f => simp [hschema f hf]
  unfold Thing.perform_action_steps
  rw [hreg]
  simp [hguard, Thing.action_notify]

/-- C1: requesting a registered action whose declared input schema (if any)
accepts the input yields a record with `status='created'`, `timeRequested`
stamped from the clock and `timeCompleted` unset, together with exactly one
`created` action-status broadcast to the Thing-wide subscribers; `start()`
then drives the record to `completed` with `timeCompleted` stamped no
earlier than `timeRequested`, broadcasting exactly one `pending` and then
one `completed` action-status notification — three notifications in all, in
lifecycle order. -/
theorem claim_C1 (t : Thing) (name : String) (input : Option PyVal) (newId : String)
    (desc : AvailableAction)
    (hreg : alistLookup name t.available_actions = some desc)
    (hschema : ∀ f, desc.inputSchema = some f → f input = true) :
    ∃ a t1,
      Thing.perform_action t name input newId =
        (some a, t1, [⟨t.subscribers, Message.actionStatus name newId "created" t.clock none⟩]) ∧
      a.status = "created" ∧ a.time_requested = t.clock ∧ a.time_completed = none ∧
      (Action.start t1 a).1.status = "completed" ∧
      (Action.start t1 a).1.time_requested = a.time_requested ∧
      (Action.start t1 a).1.time_completed = some (t.clock + 1) ∧
      (∀ c, (Action.start t1 a).1.time_completed = some c →
        (Action.start t1 a).1.time_requested ≤ c) ∧
      (Action.start t1 a).2.2 =
        [⟨t.subscribers, Message.actionStatus name newId "pending" t.clock none⟩,
         ⟨t.subscribers, Message.actionStatus name newId "completed" t.clock (some (t.clock + 1))⟩] := by
  have hsteps := perform_action_steps_eq t name input newId desc hreg hschema
  refine ⟨⟨newId, name, input, "created", t.clock, none⟩,
    { t with
        clock := t.clock + 1
        actions := (alistSet name
          ((alistLookup name t.actions).getD [] ++
            [⟨newId, name, input, "created", t.clock, none⟩])
          t.actions) },
    ?_, rfl, rfl, rfl, rfl, rfl, rfl, ?_, rfl⟩
  · unfold Thing.perform_action
    rw [hsteps]
  · intro c hc
    have h2 : some (t.clock + 1) = some c := hc
    have h3 : t.clock + 1 = c := by injection h2
    show t.clock ≤ c
    omega

/-- C4: requesting a registered action whose declared input schema rejects
the input fails the creation itself: no record is returned, the Thing state
(in particular the live-actions list) is unchanged, and no notification is
emitted. -/
theorem claim_C4 (t : Thing) (name : String) (input : Option PyVal) (newId : String)
    (desc : AvailableAction) (f : Option PyVal → Bool)
    (hreg : alistLookup name t.available_actions = some desc)
    (hf : desc.inputSchema = some f) (hrej : f input = false) :
    Thing.perform_action t name input newId = (none, t, []) := by
  unfold Thing.perform_action Thing.perform_action_steps
  rw [hreg]
  simp [hf, hrej]

/-- C10: on a successful action request with a fresh id, the `created`
action-status notification is the broadcast computed at the pre-append state
`tMid`, and looking the record up by its (name, id) pair at that state finds
nothing, while the same lookup at the final state finds it. -/
theorem claim_C10 (t : Thing) (name : String) (input : Option PyVal) (newId : String)
    (desc : AvailableAction)
    (hreg : alistLookup name t.available_actions = some desc)
    (hschema : ∀ f, desc.inputSchema = some f → f input = true)
    (hfresh : Thing.get_action t name newId = none) :
    ∀ a tMid d tFin,
      Thing.perform_action_steps t name input newId = some (a, tMid, d, tFin) →
      d = Thing.action_notify tMid a ∧
      Thing.get_action tMid name newId = none ∧
      Thing.get_action tFin name newId = some a ∧
      Thing.perform_action t name input newId = (some a, tFin, [d]) := by
  intro a tMid d tFin hsteps
  rw [perform_action_steps_eq t name input newId desc hreg hschema] at hsteps
  injection hsteps with h4
  rw [Prod.ext_iff] at h4
  obtain ⟨ha, h5⟩ := h4
  rw [Prod.ext_iff] at h5
  obtain ⟨htm, h6⟩ := h5
  rw [Prod.ext_iff] at h6
  obtain ⟨hd, htf⟩ := h6
  subst ha
  subst htm
  subst hd
  subst htf
  refine ⟨rfl, hfresh, ?_, ?_⟩
  · show (match alistLookup name
        (alistSet name ((alistLookup name t.actions).getD [] ++
          [⟨newId, name, input, "created", t.clock, none⟩]) t.actions) with
      | none => none
      | some lst => lst.find? (fun x : ActionRecord => x.id = newId)) = _
    rw [alistLookup_alistSet_self]
    cases hl : alistLookup name t.actions with
    | none => simp [List.find?]
    | some lst =>
      have hnone : lst.find? (fun x : ActionRecord => x.id = newId) = none := by
        unfold Thing.get_action at hfresh
        rw [hl] at hfresh
        exact hfresh
      simp only [Option.getD]
      rw [find?_append_of_none _ _ _ hnone]
      simp [List.find?]
  · unfold Thing.perform_action
    rw [perform_action_steps_eq t name input newId desc hreg hschema]

/-- Model of the `fade` action's declared input schema: the input must be an
object carrying a `level` member. -/
def fadeSchema : Option PyVal → Bool
  | some (.dict fs) => (lookupField "level" fs).isSome
  | _ => false

/-- A concrete Lamp-like Thing: one property, a schema-checked `fade` action,
a schema-less `reboot` action, one registered event kind with subscriber 3,
one Thing-wide subscriber 7. -/
def tLamp : Thing :=
  { properties := [("level", pGate)]
  , available_actions := [("fade", ⟨some fadeSchema⟩), ("reboot", ⟨none⟩)]
  , available_events := [("overheated", [3])]
  , actions := [("fade", []), ("reboot", [])]
  , events := []
  , subscribers := [7]
  , clock := 10 }

/-- The record a valid `fade` request on `tLamp` creates. -/
def aW : ActionRecord :=
  ⟨"a1", "fade", some (PyVal.dict [("level", PyVal.int 10)]), "created", 10, none⟩

/-- `tLamp` at the moment the created-notification fires (clock advanced,
record not yet appended). -/
def tMidW : Thing :=
  { tLamp with clock := 11 }

/-- `tLamp` after the `fade` request returned. -/
def t1W : Thing :=
  { tLamp with
      clock := 11
      actions := [("fade", [aW]), ("reboot", [])] }

theorem fadeSchema_accepts : ∀ f, (⟨some fadeSchema⟩ : AvailableAction).inputSchema = some f →
    f (some (PyVal.dict [("level", PyVal.int 10)])) = true := by
  intro f hf
  have h : fadeSchema = f := by injection hf
  subst h
  rfl

/-- Witness for C1 on `tLamp`: request `fade` with valid input, then start
it; the three broadcasts appear, one per stage, in order, and the timestamps
are monotone. -/
theorem claim_C1_witness :
    Thing.perform_action tLamp "fade" (some (PyVal.dict [("level", PyVal.int 10)])) "a1" =
      (some aW, t1W, [⟨[7], Message.actionStatus "fade" "a1" "created" 10 none⟩]) ∧
    aW.status = "created" ∧
    (Action.start t1W aW).1.status = "completed" ∧
    (Action.start t1W aW).1.time_completed = some 11 ∧
    (Action.start t1W aW).1.time_requested = 10 ∧
    (Action.start t1W aW).2.2 =
      [⟨[7], Message.actionStatus "fade" "a1" "pending" 10 none⟩,
       ⟨[7], Message.actionStatus "fade" "a1" "completed" 10 (some 11)⟩] := by
  obtain ⟨a, t1, h1, hst, htr, htc, h5, h6, h7, h8, h9⟩ :=
    claim_C1 tLamp "fade" (some (PyVal.dict [("level", PyVal.int 10)])) "a1"
      ⟨some fadeSchema⟩ rfl fadeSchema_accepts
  have h0 : Thing.perform_action tLamp "fade" (some (PyVal.dict [("level", PyVal.int 10)])) "a1" =
      (some aW, t1W, [⟨[7], Message.actionStatus "fade" "a1" "created" 10 none⟩]) := rfl
  have he := h1.symm.trans h0
  rw [Prod.ext_iff] at he
  obtain ⟨haw, he2⟩ := he
  rw [Prod.ext_iff] at he2
  obtain ⟨ht1, _⟩ := he2
  have haw2 : a = aW := by injection haw
  subst haw2
  subst ht1
  exact ⟨h0, hst, h5, h7, h6.trans htr, h9⟩

/-- Witness for C4 on `tLamp`: a `fade` request whose input fails the
declared schema creates nothing, changes nothing and notifies nobody. -/
theorem claim_C4_witness :
    Thing.perform_action tLamp "fade" (some (PyVal.str "bad")) "b1" = (none, tLamp, []) :=
  claim_C4 tLamp "fade" (some (PyVal.str "bad")) "b1" ⟨some fadeSchema⟩ fadeSchema rfl rfl rfl

/-- Witness for C10 on `tLamp`: at the moment of the created-notification
the (name, id) lookup finds nothing; after the request returns it finds the
record. -/
theorem claim_C10_witness :
    (⟨[7], Message.actionStatus "fade" "a1" "created" 10 none⟩ : Delivery) =
      Thing.action_notify tMidW aW ∧
    Thing.get_action tMidW "fade" "a1" = none ∧
    Thing.get_action t1W "fade" "a1" = some aW := by
  have h := claim_C10 tLamp "fade" (some (PyVal.dict [("level", PyVal.int 10)])) "a1"
    ⟨some fadeSchema⟩ rfl fadeSchema_accepts rfl aW tMidW
    ⟨[7], Message.actionStatus "fade" "a1" "created" 10 none⟩ t1W rfl
  exact ⟨h.1, h.2.1, h.2.2.1⟩

/-- Counterexample to C5 as stated: `cancel()` on a record with
`status='created'` leaves the status `'created'` — it never becomes
`'cancelled'` (no such state exists in the code; the base-class `cancel`
body is `pass`). -/
theorem claim_C5_counterexample :
    Action.cancel ⟨"c1", "fade", none, "created", 0, none⟩ =
      (⟨"c1", "fade", none, "created", 0, none⟩ : ActionRecord) ∧
    (Action.cancel ⟨"c1", "fade", none, "created", 0, none⟩).status ≠ "cancelled" := by
  exact ⟨rfl, by decide⟩

/-- C5 (amended): `cancel()` is a no-op at every status: it performs no
transition (there is no cancelled state), invokes no remaining work, and
touches nothing — in particular a cancel on a completed record has no
effect, and the record is never removed by `cancel` itself. -/
theorem claim_C5 (a : ActionRecord) : Action.cancel a = a :=
  rfl

/-- Counterexample to C6 as stated: on `tLamp`, requesting the unknown
action `"unknown"` and requesting the registered `"fade"` with
schema-invalid input both return `None` — the two outcomes are not
distinct — and setting the unknown property `"missing"` silently returns
exactly like a successful write does (both `ret`), rather than reporting a
not-found outcome. -/
theorem claim_C6_counterexample :
    (Thing.perform_action tLamp "unknown" none "i1").1 = none ∧
    (Thing.perform_action tLamp "fade" (some (PyVal.str "bad")) "i2").1 = none ∧
    Thing.set_property tLamp "missing" (PyVal.int 1) = (tLamp, Thing.SetPropResult.ret, []) ∧
    (Thing.set_property tLamp "level" (PyVal.int 60)).2.1 = Thing.SetPropResult.ret :=
  ⟨rfl, rfl, rfl, rfl⟩

/-- C6 (amended): at the `Thing` interface, an unknown action name and
schema-invalid input for a known action both produce the same `None`
outcome with no state change and no notification (not distinct from each
other); setting an unknown property is a silent no-op whose return is
indistinguishable from a successful write's; only a validation failure on a
known property is distinguishable, as a raised `PropertyError`. -/
theorem claim_C6 (t : Thing) (nameA propName : String) (input : Option PyVal)
    (newId : String) (v : PyVal) :
    (alistLookup nameA t.available_actions = none →
      Thing.perform_action t nameA input newId = (none, t, [])) ∧
    (∀ desc f, alistLookup nameA t.available_actions = some desc →
      desc.inputSchema = some f → f input = false →
      Thing.perform_action t nameA input newId = (none, t, [])) ∧
    (Thing.find_property t propName = none →
      Thing.set_property t propName v = (t, Thing.SetPropResult.ret, [])) ∧
    (∀ p msg, Thing.find_property t propName = some p →
      SProperty.validate_value p.metadata v = SetOutcome.perror msg →
      Thing.set_property t propName v =
        (t, Thing.SetPropResult.raised (SetOutcome.perror msg), [])) := by
  refine ⟨?_, ?_, ?_, ?_⟩
  · intro h
    unfold Thing.perform_action Thing.perform_action_steps
    rw [h]
  · intro desc f hreg hf hrej
    unfold Thing.perform_action Thing.perform_action_steps
    rw [hreg]
    simp [hf, hrej]
  · intro h
    unfold Thing.set_property
    rw [h]
  · intro p msg hp hv
    unfold Thing.set_property
    rw [hp]
    simp [SProperty.set_value, hv]

/-- Witness for C6 (amended) on `tLamp`: unknown action, schema-rejected
input, unknown property, and an out-of-range write on a known property. -/
theorem claim_C6_witness :
    Thing.perform_action tLamp "unknown" none "i1" = (none, tLamp, []) ∧
    Thing.perform_action tLamp "fade" (some (PyVal.str "bad")) "i2" = (none, tLamp, []) ∧
    Thing.set_property tLamp "missing" (PyVal.int 1) = (tLamp, Thing.SetPropResult.ret, []) ∧
    Thing.set_property tLamp "level" (PyVal.int 200) =
      (tLamp, Thing.SetPropResult.raised (SetOutcome.perror "Value greater than maximum"), []) := by
  refine ⟨(claim_C6 tLamp "unknown" "x" none "i1" PyVal.null).1 rfl,
          (claim_C6 tLamp "fade" "x" (some (PyVal.str "bad")) "i2" PyVal.null).2.1
            ⟨some fadeSchema⟩ fadeSchema rfl rfl rfl,
          (claim_C6 tLamp "x" "missing" none "i" (PyVal.int 1)).2.2.1 rfl,
          (claim_C6 tLamp "x" "level" none "i" (PyVal.int 200)).2.2.2 pGate
            "Value greater than maximum" rfl rfl⟩

/-- Iterated `Thing.add_event` (the state after N calls). -/
def add_events (t : Thing) (es : List EventRecord) : Thing :=
  es.foldl (fun acc e => (Thing.add_event acc e).1) t

theorem add_events_events : ∀ (es : List EventRecord) (t : Thing),
    (add_events t es).events = t.events ++ es
  | [], t => by simp [add_events]
  | e :: rest, t => by
    show (add_events (Thing.add_event t e).1 rest).events = _
    rw [add_events_events rest]
    simp [Thing.add_event]

/-- C7: `add_event` appends the event to the log; when the event's name is a
registered kind the single resulting broadcast is addressed exactly to that
kind's subscriber set (so a Thing-wide subscriber that has not
event-subscribed receives nothing); when the name is unregistered nothing is
delivered; and the event descriptions, unfiltered or filtered by name, come
back in append order with no (matching) entry dropped — in particular N
`add_event` calls grow the unfiltered description list by exactly N. -/
theorem claim_C7 (t : Thing) (e : EventRecord) (es : List EventRecord) :
    (Thing.add_event t e).1.events = t.events ++ [e] ∧
    (∀ subs, alistLookup e.name t.available_events = some subs →
      (Thing.add_event t e).2 = [⟨subs, Message.event e.name e.time⟩]) ∧
    (∀ subs w, alistLookup e.name t.available_events = some subs →
      w ∉ subs → ∀ d ∈ (Thing.add_event t e).2, w ∉ d.recipients) ∧
    (alistLookup e.name t.available_events = none → (Thing.add_event t e).2 = []) ∧
    Thing.get_event_descriptions (add_events t es) none =
      (t.events ++ es).map as_event_description ∧
    (∀ n, Thing.get_event_descriptions (add_events t es) (some n) =
      ((t.events ++ es).filter (fun x => x.name = n)).map as_event_description) := by
  refine ⟨rfl, ?_, ?_, ?_, ?_, ?_⟩
  · intro subs h
    unfold Thing.add_event Thing.event_notify
    simp only
    rw [h]
  · intro subs w h hw d hd
    unfold Thing.add_event Thing.event_notify at hd
    simp only at hd
    rw [h] at hd
    simp only [List.mem_singleton] at hd
    subst hd
    exact hw
  · intro h
    unfold Thing.add_event Thing.event_notify
    simp only
    rw [h]
  · unfold Thing.get_event_descriptions
    rw [add_events_events]
  · intro n
    unfold Thing.get_event_descriptions
    rw [add_events_events]

/-- Two concrete events. -/
def eOver : EventRecord := ⟨"overheated", 20, some (PyVal.int 102)⟩

/-- An event whose name matches no registered event kind of `tLamp`. -/
def eOther : EventRecord := ⟨"rebooted", 21, none⟩

/-- Witness for C7 on `tLamp`: the "overheated" broadcast goes exactly to
the per-event subscriber 3 and not to the Thing-wide subscriber 7; an
unregistered event is delivered to nobody; after the two `add_event` calls
the unfiltered description list has exactly the two entries in append order
and filtering keeps the matching one. -/
theorem claim_C7_witness :
    (Thing.add_event tLamp eOver).1.events = [eOver] ∧
    (Thing.add_event tLamp eOver).2 = [⟨[3], Message.event "overheated" 20⟩] ∧
    (∀ d ∈ (Thing.add_event tLamp eOver).2, 7 ∉ d.recipients) ∧
    (Thing.add_event tLamp eOther).2 = [] ∧
    Thing.get_event_descriptions (add_events tLamp [eOver, eOther]) none =
      [as_event_description eOver, as_event_description eOther] ∧
    Thing.get_event_descriptions (add_events tLamp [eOver, eOther]) (some "overheated") =
      [as_event_description eOver] := by
  obtain ⟨h1, h2, h3, _h4, h5, h6⟩ := claim_C7 tLamp eOver [eOver, eOther]
  refine ⟨h1, h2 [3] rfl, h3 [3] 7 rfl (by decide), ?_, h5, ?_⟩
  · exact (claim_C7 tLamp eOther []).2.2.2.1 rfl
  · have h := h6 "overheated"
    simpa using h

/-- C8: in multi-thing mode an identifier parsing (per Python `int`) to a
non-negative in-range integer i resolves to the i-th thing of the ordered
sequence; a non-numeric identifier, and a parsed index that is negative or
out of range, resolve to not-found; in single-thing mode every identifier
resolves to the one stored thing. -/
theorem claim_C8 {α : Type} (m : MultipleThings α) (s : SingleThing α) (idx : String) :
    (∀ i : Int, pyParseInt idx = some i → 0 ≤ i →
      ∀ h : i.toNat < m.things.length,
        MultipleThings.get_thing m idx = some (m.things.get ⟨i.toNat, h⟩)) ∧
    (pyParseInt idx = none → MultipleThings.get_thing m idx = none) ∧
    (∀ i : Int, pyParseInt idx = some i → (i < 0 ∨ (m.things.length : Int) ≤ i) →
      MultipleThings.get_thing m idx = none) ∧
    SingleThing.get_thing s idx = s.thing := by
  refine ⟨?_, ?_, ?_, rfl⟩
  · intro i hp hpos h
    unfold MultipleThings.get_thing
    rw [hp]
    show (if i < 0 ∨ (m.things.length : Int) ≤ i then none else m.things.get? i.toNat) = _
    rw [if_neg (by omega)]
    exact List.get?_eq_get h
  · intro hp
    unfold MultipleThings.get_thing
    rw [hp]
  · intro i hp hout
    unfold MultipleThings.get_thing
    rw [hp]
    show (if i < 0 ∨ (m.things.length : Int) ≤ i then none else m.things.get? i.toNat) = _
    rw [if_pos hout]

/-- A concrete three-thing registry and a single-thing container. -/
def mW : MultipleThings Nat := ⟨[10, 20, 30], "reg"⟩

/-- The single-thing container used by the C8 witness. -/
def sW : SingleThing Nat := ⟨99⟩

/-- Witness for C8: with things [10, 20, 30], `"1"` resolves to the second
thing, `"5"` and `"abc"` resolve to not-found; the single-thing container
resolves an arbitrary identifier to its one thing. -/
theorem claim_C8_witness :
    MultipleThings.get_thing mW "1" = some 20 ∧
    MultipleThings.get_thing mW "5" = none ∧
    MultipleThings.get_thing mW "abc" = none ∧
    SingleThing.get_thing sW "anything" = 99 := by
  refine ⟨?_, ?_, ?_, (claim_C8 mW sW "anything").2.2.2⟩
  · exact (claim_C8 mW sW "1").1 1 (by decide) (by decide) (by decide)
  · exact (claim_C8 mW sW "5").2.2.1 5 (by decide) (by decide)
  · exact (claim_C8 mW sW "abc").2.1 (by decide)

theorem remove_event_subscriber_subscribers (t : Thing) (n : String) (ws : Nat) :
    (Thing.remove_event_subscriber t n ws).subscribers = t.subscribers :=
  rfl

theorem foldl_remove_subscribers (ws : Nat) : ∀ (names : List String) (acc : Thing),
    ((names.foldl (fun a n => Thing.remove_event_subscriber a n ws) acc)).subscribers =
      acc.subscribers
  | [], _ => rfl
  | n :: rest, acc => by
    rw [List.foldl_cons, foldl_remove_subscribers ws rest]
    rfl

theorem foldl_remove_mem (ws : Nat) : ∀ (names : List String) (acc : Thing)
    (kv : String × List Nat),
    kv ∈ (names.foldl (fun a n => Thing.remove_event_subscriber a n ws) acc).available_events →
    ws ∉ kv.2 ∨ (kv ∈ acc.available_events ∧ kv.1 ∉ names)
  | [], acc, kv => fun h => Or.inr ⟨h, by simp⟩
  | n :: rest, acc, kv => by
    intro h
    rw [List.foldl_cons] at h
    rcases foldl_remove_mem ws rest (Thing.remove_event_subscriber acc n ws) kv h with
      hws | ⟨hin, hrest⟩
    · exact Or.inl hws
    · unfold Thing.remove_event_subscriber at hin
      simp only [List.mem_map] at hin
      obtain ⟨kv0, hkv0, heq⟩ := hin
      by_cases hc : kv0.1 = n ∧ ws ∈ kv0.2
      · rw [if_pos hc] at heq
        subst heq
        refine Or.inl ?_
        intro hmem
        have := List.of_mem_filter hmem
        simp at this
      · rw [if_neg hc] at heq
        subst heq
        by_cases hn : kv0.1 = n
        · refine Or.inl ?_
          intro hmem
          exact hc ⟨hn, hmem⟩
        · exact Or.inr ⟨hkv0, by simp [hn, hrest]⟩

/-- C9: after `remove_subscriber`, the handle is in no subscriber set of the
Thing: not in the Thing-wide set, and not in the per-event subscriber set of
any registered event kind. -/
theorem claim_C9 (t : Thing) (ws : Nat) :
    ws ∉ (Thing.remove_subscriber t ws).subscribers ∧
    ∀ kv ∈ (Thing.remove_subscriber t ws).available_events, ws ∉ kv.2 := by
  unfold Thing.remove_subscriber
  constructor
  · rw [foldl_remove_subscribers]
    by_cases h : ws ∈ t.subscribers
    · simp only [if_pos h]
      intro hmem
      have := List.of_mem_filter hmem
      simp at this
    · simp only [if_neg h]
      exact h
  · intro kv hkv
    rcases foldl_remove_mem ws _ _ kv hkv with hws | ⟨hin, hnot⟩
    · exact hws
    · exact absurd (List.mem_map_of_mem Prod.fst hin) hnot

/-- A Thing whose handle 7 is both a Thing-wide subscriber and an
event-specific subscriber of two event kinds. -/
def tC9 : Thing :=
  { properties := []
  , available_actions := []
  , available_events := [("overheated", [7, 3]), ("cooled", [7])]
  , actions := []
  , events := []
  , subscribers := [7, 8]
  , clock := 0 }

/-- Witness for C9 on `tC9`: after `remove_subscriber 7` the handle 7 is
gone from the Thing-wide set and from the per-event set of each registered
kind (the entries become `[3]` and `[]`). -/
theorem claim_C9_witness :
    7 ∉ (Thing.remove_subscriber tC9 7).subscribers ∧
    7 ∉ (("overheated", ([3] : List Nat))).2 ∧
    7 ∉ (("cooled", ([] : List Nat))).2 :=
  ⟨(claim_C9 tC9 7).1,
   (claim_C9 tC9 7).2 ("overheated", [3]) (by decide),
   (claim_C9 tC9 7).2 ("cooled", []) (by decide)⟩

end Webthing
